import Mathlib

/-!
Verification of the pothole-reporter address pipeline (src/api/worker.ts).

Shallow embedding conventions:
* JS numbers are modelled exactly: coordinates and random draws as `ℚ`
  (every JS float is a rational), values produced by `Math.sqrt`/trig as `ℝ`.
  The two division corner cases of IEEE arithmetic that the code can reach
  (`0/0 = NaN`, `x/0 = Infinity` inside the ratio clamp) are modelled
  explicitly where they occur (`interpRatioOpt`).
* `Math.round x` is `⌊x + 1/2⌋` (round half toward positive infinity),
  `Math.floor` is `Int.floor`, JS `%` on integers is `Int.tmod`
  (sign follows the dividend, as in JS).
* Fallible external calls (fetch + JSON parse) are inputs of type `Option _`:
  `none` is the branch in which the corresponding `try` block threw.
* `Math.random()` is an input `rand : ℚ`, with `0 ≤ rand < 1` as hypotheses
  where a claim needs them.
* JS string truthiness (`undefined` and `""` are falsy) is `jsTruthyOpt`.
-/

namespace PotholeLA

/-- A GPS coordinate `{lat, lng}` (worker.ts `PotholeReport.location`). -/
structure Coord where
  lat : ℚ
  lng : ℚ
deriving DecidableEq

/-- The `address` sub-object of a Nominatim search result; only the field
the worker reads is modelled. -/
structure PlaceAddr where
  house_number : Option String
deriving DecidableEq

/-- One entry of the Nominatim `/search` response used by
`interpolateAddress` (worker.ts line 1031): an optional `address` object
plus coordinates.  Nominatim returns `lat`/`lon` as strings and the code
applies `parseFloat`; the model carries the parsed rational directly. -/
structure Place where
  address : Option PlaceAddr
  lat : ℚ
  lon : ℚ
deriving DecidableEq

/-- An element of `withNumbers` (worker.ts lines 1034-1040): a candidate
with a parsed integer house number. -/
structure AddressPoint where
  num : ℤ
  lat : ℚ
  lng : ℚ
deriving DecidableEq

/-- JS truthiness of a string-or-undefined value: `undefined` and `""` are
falsy, every other string is truthy. -/
def jsTruthyOpt (o : Option String) : Bool :=
  match o with
  | none => false
  | some s => !(s == "")

/-- JS `a || b` for a string-or-undefined `a` and a string default `b`. -/
def jsOrStr (a : Option String) (b : String) : String :=
  match a with
  | none => b
  | some s => if s == "" then b else s

/-- Value of a maximal digit prefix, `parseInt`-style accumulation. -/
def digitsPrefixVal : List Char → ℕ → ℕ
  | [], acc => acc
  | c :: cs, acc => if c.isDigit then digitsPrefixVal cs (acc * 10 + (c.toNat - 48)) else acc

/-- Parse a maximal nonempty digit prefix; `none` when the first character
is not a digit (JS `parseInt` yields `NaN` there). -/
def parseNatPrefix (cs : List Char) : Option ℕ :=
  match cs with
  | [] => none
  | c :: _ => if c.isDigit then some (digitsPrefixVal cs 0) else none

/-- JS `parseInt(s)` (radix 10): skip leading whitespace, optional sign,
then a maximal digit prefix; `none` models `NaN`.  (The legacy `0x` hex
form of `parseInt` is not modelled; no claim depends on it.) -/
def jsParseInt (s : String) : Option ℤ :=
  let t := s.data.dropWhile (fun c => c == ' ' || c == '\t' || c == '\n' || c == '\r')
  match t with
  | '-' :: rest => (parseNatPrefix rest).map (fun n => -(n : ℤ))
  | '+' :: rest => (parseNatPrefix rest).map (fun n => (n : ℤ))
  | rest => (parseNatPrefix rest).map (fun n => (n : ℤ))

/-- worker.ts lines 1034-1040: filter places that have
`p.address && p.address.house_number`, parse the number, drop `NaN`s. -/
def withNumbersOf (places : List Place) : List AddressPoint :=
  ((places.filter (fun p =>
      match p.address with
      | none => false
      | some a => jsTruthyOpt a.house_number)).map
    (fun p => ((p.address.bind (fun a => a.house_number)).getD (""), p.lat, p.lon))).filterMap
    (fun q => (jsParseInt q.1).map (fun n => AddressPoint.mk n q.2.1 q.2.2))

/-- Squared planar distance used as the sort key; the source compares
`Math.hypot` values (worker.ts lines 1049-1053) and `Real.sqrt` is
monotone, so ordering by the squared distance is the same ordering
(`sqrt_ordering_agrees` below). -/
def distSqTo (loc : Coord) (a : AddressPoint) : ℚ :=
  (a.lat - loc.lat) ^ 2 + (a.lng - loc.lng) ^ 2

/-- Stable insertion of one element into a key-sorted list: on a tie the
incoming element (which originated earlier in the input) stays first. -/
def sortInsert (key : AddressPoint → ℚ) (x : AddressPoint) :
    List AddressPoint → List AddressPoint
  | [] => [x]
  | y :: ys => if key x ≤ key y then x :: y :: ys else y :: sortInsert key x ys

/-- Stable sort by a rational key.  JS `Array.prototype.sort` is stable
(ES2019), and any two stable sorts agree, so this models
`withNumbers.sort((a, b) => distA - distB)`. -/
def sortByKey (key : AddressPoint → ℚ) : List AddressPoint → List AddressPoint
  | [] => []
  | x :: xs => sortInsert key x (sortByKey key xs)

/-- worker.ts lines 1049-1053: sort candidates by distance to `loc`. -/
def sortByDist (loc : Coord) (l : List AddressPoint) : List AddressPoint :=
  sortByKey (distSqTo loc) l

/-! ### Grid Estimator (worker.ts `estimateFromBlock`, lines 1090-1124) -/

/-- Downtown LA latitude (worker.ts line 1096). -/
def dtLat : ℚ := 34.0522

/-- Downtown LA longitude (worker.ts line 1097). -/
def dtLng : ℚ := -118.2437

/-- Block size in degrees (worker.ts line 1100). -/
def blockSize : ℚ := 0.002

/-- `latBlocks` (worker.ts line 1103). -/
def latBlocksOf (loc : Coord) : ℚ := |loc.lat - dtLat| / blockSize

/-- `lngBlocks` (worker.ts line 1104). -/
def lngBlocksOf (loc : Coord) : ℚ := |loc.lng - dtLng| / blockSize

/-- ASCII lowercase of one character; models the `/i` regex flag. -/
def charLower (c : Char) : Char :=
  if 65 ≤ c.toNat ∧ c.toNat ≤ 90 then Char.ofNat (c.toNat + 32) else c

/-- Lowercased character list of a string. -/
def strLowerData (s : String) : List Char := s.data.map charLower

/-- Case-insensitive "starts with" over characters. -/
def startsWithCI (s : String) (p : List Char) : Bool := p.isPrefixOf (strLowerData s)

/-- Case-insensitive "ends with" over characters. -/
def endsWithCI (s : String) (p : List Char) : Bool := p.isSuffixOf (strLowerData s)

/-- worker.ts lines 1108-1109: `isNS` is
`streetName.match(/^(N|S|North|South)/i) || streetName.match(/(Ave|Avenue|Way|Place|Pl)$/i)`.
The `North`/`South` alternatives are subsumed by `N`/`S` but kept to
mirror the source.  (The `nsPatterns` constant on line 1107 is unused in
the source and is not modelled.) -/
def isNSStreet (streetName : String) : Bool :=
  (startsWithCI streetName ['n'] || startsWithCI streetName ['s'] ||
   startsWithCI streetName ['n', 'o', 'r', 't', 'h'] ||
   startsWithCI streetName ['s', 'o', 'u', 't', 'h']) ||
  (endsWithCI streetName ['a', 'v', 'e'] || endsWithCI streetName ['a', 'v', 'e', 'n', 'u', 'e'] ||
   endsWithCI streetName ['w', 'a', 'y'] || endsWithCI streetName ['p', 'l', 'a', 'c', 'e'] ||
   endsWithCI streetName ['p', 'l'])

/-- `blocks` (worker.ts line 1112). -/
def blocksOf (loc : Coord) (streetName : String) : ℚ :=
  if isNSStreet streetName then lngBlocksOf loc else latBlocksOf loc

/-- JS `Math.round` on an exact rational: round half toward `+∞`. -/
def jroundQ (q : ℚ) : ℤ := ⌊q + 1 / 2⌋

/-- The jitter `Math.floor(Math.random() * 50)` (worker.ts line 1121),
with the `Math.random()` draw as input. -/
def jitterOf (rand : ℚ) : ℤ := ⌊rand * 50⌋

/-- The estimate after line 1118 (base + 100 per block, rounded to the
nearest 10) and before the random jitter is added. -/
def estimatePreJitter (loc : Coord) (streetName : String) : ℤ :=
  jroundQ ((jroundQ (100 + blocksOf loc streetName * 100) : ℚ) / 10) * 10

/-- The numeric part of the Grid Estimator result (after line 1121). -/
def estimateNum (loc : Coord) (streetName : String) (rand : ℚ) : ℤ :=
  estimatePreJitter loc streetName + jitterOf rand

/-- worker.ts `estimateFromBlock` (lines 1090-1124). -/
def estimateFromBlock (loc : Coord) (streetName : String) (rand : ℚ) : String :=
  Int.repr (estimateNum loc streetName rand) ++ " (approx)"

/-! ### Address interpolation core (worker.ts lines 1056-1081) -/

/-- `totalDist = Math.hypot(p2.lat - p1.lat, p2.lng - p1.lng)`
(worker.ts line 1062). -/
noncomputable def totalDist (p1 p2 : AddressPoint) : ℝ :=
  Real.sqrt (((p2.lat : ℝ) - (p1.lat : ℝ)) ^ 2 + ((p2.lng : ℝ) - (p1.lng : ℝ)) ^ 2)

/-- `ourDist = Math.hypot(loc.lat - p1.lat, loc.lng - p1.lng)`
(worker.ts line 1063).  Note: the distance from the target to `p1`, not a
projection onto the segment. -/
noncomputable def ourDist (loc : Coord) (p1 : AddressPoint) : ℝ :=
  Real.sqrt (((loc.lat : ℝ) - (p1.lat : ℝ)) ^ 2 + ((loc.lng : ℝ) - (p1.lng : ℝ)) ^ 2)

open Classical in
/-- `ratio = Math.min(1, Math.max(0, ourDist / totalDist))`
(worker.ts line 1064), with the two IEEE division corner cases spelled
out: `0/0` is `NaN` (modelled `none`; `Math.max`/`Math.min` propagate
`NaN`), and `d/0` for `d > 0` is `+Infinity`, which the clamp maps to
`1`. -/
noncomputable def interpRatioOpt (loc : Coord) (p1 p2 : AddressPoint) : Option ℝ :=
  if totalDist p1 p2 = 0 ∧ ourDist loc p1 = 0 then none
  else if totalDist p1 p2 = 0 then some 1
  else some (min 1 (max 0 (ourDist loc p1 / totalDist p1 p2)))

/-- JS `Math.round` on a real: round half toward `+∞`. -/
noncomputable def jround (x : ℝ) : ℤ := ⌊x + 1 / 2⌋

/-- `interpolated = Math.round(p1.num + (p2.num - p1.num) * ratio)`
(worker.ts line 1066); `none` is the `NaN` case, which `Math.round`
propagates. -/
noncomputable def interpEstimatePre (loc : Coord) (p1 p2 : AddressPoint) : Option ℤ :=
  (interpRatioOpt loc p1 p2).map
    (fun r => jround ((p1.num : ℝ) + ((p2.num : ℝ) - (p1.num : ℝ)) * r))

/-- worker.ts lines 1070-1075: the side-of-street sign.
`bearing = Math.atan2(p2.lng - p1.lng, p2.lat - p1.lat)` is
`Complex.arg ⟨p2.lat - p1.lat, p2.lng - p1.lng⟩` (both are the angle of
the point `(x, y)` with `atan2(y, x)`, and both return `0` at the
origin), `perpendicular = bearing + π/2`, and the sign is `Math.sign`
of the dot product with the unit perpendicular. -/
noncomputable def sideSign (loc : Coord) (p1 p2 : AddressPoint) : ℝ :=
  Real.sign (((loc.lat : ℝ) - (p1.lat : ℝ)) *
      Real.cos (Complex.arg ⟨(p2.lat : ℝ) - (p1.lat : ℝ), (p2.lng : ℝ) - (p1.lng : ℝ)⟩ +
        Real.pi / 2) +
    ((loc.lng : ℝ) - (p1.lng : ℝ)) *
      Real.sin (Complex.arg ⟨(p2.lat : ℝ) - (p1.lat : ℝ), (p2.lng : ℝ) - (p1.lng : ℝ)⟩ +
        Real.pi / 2))

open Classical in
/-- worker.ts lines 1078-1079: force parity to match the street side by
incrementing by one.  JS `%` is truncating (`Int.tmod`), so a negative
odd value compares equal to `-1`, not `1`, exactly as in the source. -/
noncomputable def parityAdjust (e : ℤ) (side : ℝ) : ℤ :=
  if 0 < side ∧ e.tmod 2 = 0 then e + 1
  else if side < 0 ∧ e.tmod 2 = 1 then e + 1
  else e

/-- The interpolation branch of worker.ts lines 1056-1081 given the two
chosen points: the adjusted integer estimate, or `none` when the JS value
is `NaN` (returned as the string `"NaN"` by the caller). -/
noncomputable def interpCore (loc : Coord) (p1 p2 : AddressPoint) : Option ℤ :=
  (interpEstimatePre loc p1 p2).map (fun e => parityAdjust e (sideSign loc p1 p2))

/-- worker.ts `interpolateAddress` (lines 1023-1087).
`searchResult = none` models the branch where the search fetch or its
JSON parse threw: the `catch` on line 1083 returns
`estimateFromBlock(loc, streetName)`.  The `rand` input feeds the Grid
Estimator's jitter draw.  The singleton match arm is the dead
`p2 = withNumbers[1] || withNumbers[0]; if (p1 === p2)` path of lines
1057-1059, unreachable under the length guard but kept faithful. -/
noncomputable def interpolateAddress (loc : Coord) (streetName : String)
    (searchResult : Option (List Place)) (rand : ℚ) : String :=
  match searchResult with
  | none => estimateFromBlock loc streetName rand
  | some places =>
    let withNumbers := withNumbersOf places
    if withNumbers.length < 2 then
      estimateFromBlock loc streetName rand
    else
      match sortByDist loc withNumbers with
      | [] => estimateFromBlock loc streetName rand
      | [p1] => Int.repr p1.num
      | p1 :: p2 :: _ =>
        match interpCore loc p1 p2 with
        | none => "NaN"
        | some k => Int.repr k

/-! ### Address Composer (worker.ts `getAddress`, lines 977-1020) -/

/-- The `address` components object of a Nominatim reverse-geocode
response; exactly the fields the worker reads. -/
structure RevAddr where
  road : Option String
  street : Option String
  house_number : Option String
  neighbourhood : Option String
  suburb : Option String
  city : Option String
  postcode : Option String
deriving DecidableEq

/-- A Nominatim reverse-geocode response (worker.ts line 986). -/
structure RevResponse where
  address : Option RevAddr
  display_name : Option String
deriving DecidableEq

/-- The empty components object: `data.address || {}` (line 987). -/
def emptyRevAddr : RevAddr := ⟨none, none, none, none, none, none, none⟩

/-- `road = addr.road || addr.street || ''` (worker.ts line 988). -/
def roadOf (data : RevResponse) : String :=
  let addr := data.address.getD emptyRevAddr
  jsOrStr addr.road (jsOrStr addr.street (""))

/-- JS `Array.prototype.join(', ')`. -/
def joinComma : List String → String
  | [] => ""
  | [x] => x
  | x :: xs => x ++ ", " ++ joinComma xs

/-- worker.ts `getAddress` (lines 977-1020).  `l = none` is the falsy
location guard on line 978; `rev = none` is the branch in which the
reverse-geocode fetch or its JSON parse threw (the `catch` on line 1016);
`searchResult`/`rand` are passed through to `interpolateAddress`. -/
noncomputable def getAddress (l : Option Coord) (rev : Option RevResponse)
    (searchResult : Option (List Place)) (rand : ℚ) : String :=
  match l with
  | none => "Los Angeles, CA"
  | some loc =>
    match rev with
    | none => "Los Angeles, CA"
    | some data =>
      let addr := data.address.getD emptyRevAddr
      let road := roadOf data
      if road == "" then jsOrStr data.display_name ("Los Angeles, CA")
      else
        let streetNum := jsOrStr addr.house_number (interpolateAddress loc road searchResult rand)
        let parts1 :=
          if streetNum != "" && road != "" then [streetNum ++ " " ++ road]
          else if road != "" then [road]
          else []
        let parts2 := parts1 ++
          (if jsTruthyOpt addr.neighbourhood then [addr.neighbourhood.getD ("")]
           else if jsTruthyOpt addr.suburb then [addr.suburb.getD ("")]
           else [])
        let parts3 := parts2 ++ [jsOrStr addr.city ("Los Angeles"), "CA"]
        let parts4 := parts3 ++
          (if jsTruthyOpt addr.postcode then [addr.postcode.getD ("")] else [])
        joinComma parts4

/-! ### Report Builder (worker.ts `handleReport`, lines 148-198) -/

/-- The parsed body of `POST /report` (worker.ts `PotholeReport`).  The
`location` and `address` fields are optional: TypeScript types are erased
at runtime and `request.json()` performs no validation, so either field
can be absent in the parsed object. -/
structure ReportBody where
  type : String
  location : Option Coord
  timestamp : String
  image : String
  address : Option String
  source : String
deriving DecidableEq

/-- Base-36 digit character, lowercase, as produced by JS
`Number.prototype.toString(36)`. -/
def b36Char (d : ℕ) : Char :=
  if d < 10 then Char.ofNat (48 + d) else Char.ofNat (87 + d)

/-- Fuel-driven base-36 digit accumulator (same shape as `Nat.toDigits`). -/
def natToB36Core : ℕ → ℕ → List Char → List Char
  | 0, _, ds => ds
  | fuel + 1, n, ds =>
    let d := b36Char (n % 36)
    if n / 36 = 0 then d :: ds else natToB36Core fuel (n / 36) (d :: ds)

/-- JS `n.toString(36)` for a natural number. -/
def natToB36 (n : ℕ) : List Char := natToB36Core (n + 1) n []

/-- ASCII uppercase of one character (JS `toUpperCase`). -/
def charUpper (c : Char) : Char :=
  if 97 ≤ c.toNat ∧ c.toNat ≤ 122 then Char.ofNat (c.toNat - 32) else c

/-- worker.ts line 151:
``reportId = `LA-${Date.now().toString(36).toUpperCase()}-${Math.random().toString(36).slice(2, 6).toUpperCase()}` ``.
`now` is the `Date.now()` millisecond clock reading; `sfx` is the
already-encoded random suffix (`Math.random().toString(36).slice(2, 6)`
uppercased), which has exactly 4 characters whenever the draw has at
least four base-36 fractional digits. -/
def mkReportId (now : ℕ) (sfx : String) : String :=
  "LA-" ++ String.mk ((natToB36 now).map charUpper) ++ "-" ++ sfx

/-- The record persisted on worker.ts lines 157-169.  The
`googleMapsUrl` embeds `lat,lng` as a query parameter; it is modelled as
the raw coordinate pair (`mapQuery`) since no claim inspects the URL
text.  The formal letter and mailto URL are derived strings not stored. -/
structure StoredReport where
  body : ReportBody
  id : String
  mapQuery : ℚ × ℚ
  status : String
  submittedAt : String
deriving DecidableEq

/-- The JSON response of `handleReport`; the fields claims inspect.  The
letter/mailto/URL string fields are elided (no claim concerns their
text). -/
structure ReportResponse where
  status : ℕ
  success : Bool
  error : Option String
  reportId : Option String
  address : Option String
  message : Option String
deriving DecidableEq

/-- The KV store (`env.REPORTS`), newest entry first; the 180-day TTL is
handled by the underlying store and is not modelled. -/
abbrev Store := List (String × StoredReport)

/-- `env.REPORTS.put(reportId, ...)` (worker.ts line 167). -/
def putStore (store : Store) (k : String) (v : StoredReport) : Store :=
  (k, v) :: store

/-- The `catch` response of worker.ts lines 192-197:
`{success: false, error: "Failed to process report"}` with status 500. -/
def errorResponse : ReportResponse :=
  ⟨500, false, some ("Failed to process report"), none, none, none⟩

/-- worker.ts `handleReport` (lines 148-198), with the external inputs
explicit: `body = none` models a request whose JSON failed to parse
(line 150 threw); `now`/`randSuffix` feed the id (line 151); `nowIso` is
`new Date().toISOString()`.  Control flow of the `try` block:
* missing `location`: line 153 `report.location.lat` throws a
  `TypeError` before anything is persisted;
* the record is persisted on line 167;
* missing `address`: line 172 `report.address.split(',')` throws a
  `TypeError` AFTER the put (the template interpolation of
  `report.address` in the letter on line 171 renders `undefined` without
  throwing), so the catch returns the 500 response while the record
  stays in the store. -/
def handleReport (body : Option ReportBody) (now : ℕ) (randSuffix : String)
    (nowIso : String) (store : Store) : ReportResponse × Store :=
  match body with
  | none => (errorResponse, store)
  | some report =>
    let reportId := mkReportId now randSuffix
    match report.location with
    | none => (errorResponse, store)
    | some loc =>
      let fullReport : StoredReport :=
        ⟨report, reportId, (loc.lat, loc.lng), "pending_submission", nowIso⟩
      let store' := putStore store reportId fullReport
      match report.address with
      | none => (errorResponse, store')
      | some addr =>
        (⟨200, true, none, some reportId, some addr, some ("Report ready!")⟩, store')

/-- The ratio that claim C2 (spec section 4.2 step 5) describes, stated
from the spec's words for comparison with `interpRatioOpt`: the
orthogonal projection of the target onto the line p1→p2 — the projected
distance along the segment, divided by the segment length — clamped to
`[0, 1]`. -/
noncomputable def projRatioSpec (loc : Coord) (p1 p2 : AddressPoint) : ℝ :=
  min 1 (max 0
    (((((loc.lat : ℝ) - (p1.lat : ℝ)) * ((p2.lat : ℝ) - (p1.lat : ℝ)) +
       ((loc.lng : ℝ) - (p1.lng : ℝ)) * ((p2.lng : ℝ) - (p1.lng : ℝ))) / totalDist p1 p2) /
      totalDist p1 p2))

/-- A concrete capture payload re-submitted in the C8 counterexample. -/
def c8Body : ReportBody :=
  ⟨"pothole", some ⟨34, -118⟩, "2025-01-01T00:00:00Z", "data:image",
   some ("123 Main St, Los Angeles, CA"), "POTHOLE LA"⟩

/-- A concrete capture payload with `location` present but no `address`
field (valid JSON, incomplete capture). -/
def c6Body : ReportBody :=
  ⟨"pothole", some ⟨34.05, -118.25⟩, "2025-01-01T00:00:00Z", "data:image", none, "POTHOLE LA"⟩

/-! ### Helper lemmas -/

lemma strExt {s t : String} (h : s.data = t.data) : s = t := by
  cases s
  cases t
  simp only at h
  rw [h]

lemma ne_empty_of_data_ne_nil {s : String} (h : s.data ≠ []) : s ≠ "" := by
  intro he
  exact h (by rw [he])

/-- Justification for sorting by squared distance in `sortByDist`: taking
square roots (what `Math.hypot` adds) does not change the ordering. -/
lemma sqrt_ordering_agrees (a b : ℝ) (hb : 0 ≤ b) :
    Real.sqrt a ≤ Real.sqrt b ↔ a ≤ b :=
  Real.sqrt_le_sqrt_iff hb

lemma toDigitsCore_len_ge (b : ℕ) :
    ∀ (f n : ℕ) (l : List Char), l.length ≤ (Nat.toDigitsCore b f n l).length := by
  intro f
  induction f with
  | zero => intro n l; simp [Nat.toDigitsCore]
  | succ f ih =>
    intro n l
    simp only [Nat.toDigitsCore]
    split
    · exact Nat.le_succ_of_le (Nat.le_refl _)
    · exact le_trans (Nat.le_succ _) (ih (n / b) (Nat.digitChar (n % b) :: l))

lemma toDigits_ne_nil (b n : ℕ) : Nat.toDigits b n ≠ [] := by
  unfold Nat.toDigits
  simp only [Nat.toDigitsCore]
  split
  · simp
  · intro hnil
    have hge := toDigitsCore_len_ge b n (n / b) [Nat.digitChar (n % b)]
    rw [hnil] at hge
    simp at hge

lemma natRepr_ne_empty (n : ℕ) : Nat.repr n ≠ "" := by
  apply ne_empty_of_data_ne_nil
  show (Nat.toDigits 10 n).asString.data ≠ []
  simpa [List.asString] using toDigits_ne_nil 10 n

lemma intRepr_ne_empty (n : ℤ) : Int.repr n ≠ "" := by
  cases n with
  | ofNat m => exact natRepr_ne_empty m
  | negSucc m =>
    apply ne_empty_of_data_ne_nil
    show (("-" ++ Nat.repr (m + 1)) : String).data ≠ []
    simp [String.data_append]

lemma estimateFromBlock_ne_empty (loc : Coord) (streetName : String) (rand : ℚ) :
    estimateFromBlock loc streetName rand ≠ "" := by
  apply ne_empty_of_data_ne_nil
  rw [estimateFromBlock, String.data_append]
  intro h
  rcases List.append_eq_nil.mp h with ⟨-, h2⟩
  have : (" (approx)" : String).data ≠ [] := by decide
  exact this h2

lemma estimateFromBlock_approx_suffix (loc : Coord) (streetName : String) (rand : ℚ) :
    estimateFromBlock loc streetName rand =
      (Int.repr (estimateNum loc streetName rand) ++ " ") ++ "(approx)" := by
  apply strExt
  simp only [estimateFromBlock, String.data_append, List.append_assoc]
  rfl

/-! ### Interpolation-core helper lemmas -/

lemma totalDist_pos (p1 p2 : AddressPoint) (h : (p1.lat, p1.lng) ≠ (p2.lat, p2.lng)) :
    0 < totalDist p1 p2 := by
  rw [totalDist]
  apply Real.sqrt_pos.mpr
  have hor : p1.lat ≠ p2.lat ∨ p1.lng ≠ p2.lng := by
    by_contra hc
    push_neg at hc
    exact h (by rw [hc.1, hc.2])
  rcases hor with hne | hne
  · have hR : ((p2.lat : ℝ)) - (p1.lat : ℝ) ≠ 0 := by
      intro h0
      exact hne (by exact_mod_cast (by linarith : ((p1.lat : ℝ)) = (p2.lat : ℝ)))
    nlinarith [pow_two_pos_of_ne_zero hR, sq_nonneg (((p2.lng : ℝ)) - (p1.lng : ℝ))]
  · have hR : ((p2.lng : ℝ)) - (p1.lng : ℝ) ≠ 0 := by
      intro h0
      exact hne (by exact_mod_cast (by linarith : ((p1.lng : ℝ)) = (p2.lng : ℝ)))
    nlinarith [pow_two_pos_of_ne_zero hR, sq_nonneg (((p2.lat : ℝ)) - (p1.lat : ℝ))]

lemma sign_div_pos (x c : ℝ) (hc : 0 < c) : Real.sign (x / c) = Real.sign x := by
  rcases lt_trichotomy x 0 with hx | hx | hx
  · rw [Real.sign_of_neg hx, Real.sign_of_neg (div_neg_of_neg_of_pos hx hc)]
  · rw [hx]
    simp
  · rw [Real.sign_of_pos hx, Real.sign_of_pos (div_pos hx hc)]

/-- For a non-degenerate segment, the side sign of worker.ts lines
1070-1075 is the sign of the plain 2D cross product: with
`bearing = atan2(y, x)` one has `cos(bearing + π/2) = -y/h` and
`sin(bearing + π/2) = x/h` for `h = hypot x y > 0`. -/
lemma sideSign_eq_cross (loc : Coord) (p1 p2 : AddressPoint)
    (h : (p1.lat, p1.lng) ≠ (p2.lat, p2.lng)) :
    sideSign loc p1 p2 = Real.sign
      ((((loc.lng : ℝ)) - (p1.lng : ℝ)) * (((p2.lat : ℝ)) - (p1.lat : ℝ)) -
       (((loc.lat : ℝ)) - (p1.lat : ℝ)) * (((p2.lng : ℝ)) - (p1.lng : ℝ))) := by
  rw [sideSign]
  set u := ((loc.lat : ℝ)) - (p1.lat : ℝ) with hu
  set v := ((loc.lng : ℝ)) - (p1.lng : ℝ) with hv
  set x := ((p2.lat : ℝ)) - (p1.lat : ℝ) with hx
  set y := ((p2.lng : ℝ)) - (p1.lng : ℝ) with hy
  have hz : (⟨x, y⟩ : ℂ) ≠ 0 := by
    intro h0
    rw [Complex.ext_iff] at h0
    have hor : p1.lat ≠ p2.lat ∨ p1.lng ≠ p2.lng := by
      by_contra hc
      push_neg at hc
      exact h (by rw [hc.1, hc.2])
    rcases hor with hne | hne
    · apply hne
      have h1 : x = 0 := by simpa using h0.1
      have h2 : (p1.lat : ℝ) = (p2.lat : ℝ) := by rw [hx] at h1; linarith
      exact_mod_cast h2
    · apply hne
      have h1 : y = 0 := by simpa using h0.2
      have h2 : (p1.lng : ℝ) = (p2.lng : ℝ) := by rw [hy] at h1; linarith
      exact_mod_cast h2
  have habs : 0 < Complex.abs ⟨x, y⟩ := AbsoluteValue.pos Complex.abs hz
  rw [Real.cos_add_pi_div_two, Real.sin_add_pi_div_two, Complex.cos_arg hz, Complex.sin_arg]
  have hre : (⟨x, y⟩ : ℂ).re = x := rfl
  have him : (⟨x, y⟩ : ℂ).im = y := rfl
  rw [hre, him]
  have hcomb : u * -(y / Complex.abs ⟨x, y⟩) + v * (x / Complex.abs ⟨x, y⟩) =
      (v * x - u * y) / Complex.abs ⟨x, y⟩ := by
    field_simp
    ring
  rw [hcomb, sign_div_pos _ _ habs]

lemma parityAdjust_self_or_succ (e : ℤ) (s : ℝ) :
    parityAdjust e s = e ∨ parityAdjust e s = e + 1 := by
  rw [parityAdjust]
  split
  · exact Or.inr rfl
  · split
    · exact Or.inr rfl
    · exact Or.inl rfl

lemma parityAdjust_side_zero (e : ℤ) : parityAdjust e 0 = e := by
  rw [parityAdjust]
  rw [if_neg (fun hc => lt_irrefl (0 : ℝ) hc.1), if_neg (fun hc => lt_irrefl (0 : ℝ) hc.1)]

lemma sortByDist_pair (loc : Coord) (a b : AddressPoint)
    (h : distSqTo loc a ≤ distSqTo loc b) :
    sortByDist loc [a, b] = [a, b] := by
  show (if distSqTo loc a ≤ distSqTo loc b then [a, b]
        else b :: sortInsert (distSqTo loc) a []) = [a, b]
  rw [if_pos h]

lemma interpRatioOpt_of_td_ne_zero (loc : Coord) (p1 p2 : AddressPoint)
    (h : totalDist p1 p2 ≠ 0) :
    interpRatioOpt loc p1 p2 =
      some (min 1 (max 0 (ourDist loc p1 / totalDist p1 p2))) := by
  rw [interpRatioOpt, if_neg (fun hc => h hc.1), if_neg h]

/-! ### Claims about the Grid Estimator and the fallback path -/

/-- C3: whenever the candidate search yields fewer than 2 candidates with
a parseable integer street number, `interpolateAddress` falls through to
the Grid Estimator (`estimateFromBlock`) and the returned string ends
with the tag `"(approx)"`. -/
theorem interp_fallback_few_candidates (loc : Coord) (streetName : String)
    (places : List Place) (rand : ℚ)
    (h : (withNumbersOf places).length < 2) :
    interpolateAddress loc streetName (some places) rand =
      estimateFromBlock loc streetName rand ∧
    ∃ pre, interpolateAddress loc streetName (some places) rand = pre ++ "(approx)" := by
  have heq : interpolateAddress loc streetName (some places) rand =
      estimateFromBlock loc streetName rand := by
    simp only [interpolateAddress]
    rw [if_pos h]
  refine ⟨heq, Int.repr (estimateNum loc streetName rand) ++ " ", ?_⟩
  rw [heq, estimateFromBlock_approx_suffix]

/-- Witness for C3 at a concrete empty candidate list. -/
theorem interp_fallback_few_candidates_witness :
    (withNumbersOf []).length < 2 ∧
    interpolateAddress ⟨34.0522, -118.2437⟩ ("1st St") (some []) 0 =
      estimateFromBlock ⟨34.0522, -118.2437⟩ ("1st St") 0 :=
  ⟨by decide, (interp_fallback_few_candidates _ _ _ _ (by decide)).1⟩

/-- C4: the Grid Estimator's estimate before the random jitter is added
is a multiple of 10, and the jitter added is an integer in `[0, 50)`
(for a `Math.random()` draw in `[0, 1)`). -/
theorem grid_multiple_of_ten_and_jitter_bounds (loc : Coord) (streetName : String)
    (rand : ℚ) (h0 : 0 ≤ rand) (h1 : rand < 1) :
    (10 : ℤ) ∣ estimatePreJitter loc streetName ∧
    0 ≤ jitterOf rand ∧ jitterOf rand < 50 ∧
    estimateNum loc streetName rand = estimatePreJitter loc streetName + jitterOf rand := by
  refine ⟨?_, ?_, ?_, rfl⟩
  · simp only [estimatePreJitter]
    exact dvd_mul_left 10 _
  · exact Int.floor_nonneg.mpr (mul_nonneg h0 (by norm_num))
  · have h50 : rand * 50 < 50 := by nlinarith
    exact Int.floor_lt.mpr (by exact_mod_cast h50)

/-- Witness for C4 at a concrete coordinate, street and draw. -/
theorem grid_multiple_of_ten_and_jitter_bounds_witness :
    ((0 : ℚ) ≤ 1 / 2 ∧ (1 / 2 : ℚ) < 1) ∧
    ((10 : ℤ) ∣ estimatePreJitter ⟨0, 0⟩ ("Main St") ∧
     0 ≤ jitterOf (1 / 2) ∧ jitterOf (1 / 2) < 50) :=
  ⟨⟨by norm_num, by norm_num⟩,
   (grid_multiple_of_ten_and_jitter_bounds ⟨0, 0⟩ ("Main St") (1 / 2)
      (by norm_num) (by norm_num)).imp id (fun h => ⟨h.1, h.2.1⟩)⟩

/-- C10: the numeric part of the Grid Estimator's result is at least 100
(base 100, non-negative block count, rounding to the nearest 10
preserves the bound, jitter non-negative). -/
theorem grid_estimate_at_least_100 (loc : Coord) (streetName : String) (rand : ℚ)
    (h0 : 0 ≤ rand) :
    100 ≤ estimateNum loc streetName rand ∧
    estimateFromBlock loc streetName rand =
      Int.repr (estimateNum loc streetName rand) ++ " (approx)" := by
  refine ⟨?_, rfl⟩
  have hb : 0 ≤ blocksOf loc streetName := by
    rw [blocksOf]
    split
    · rw [lngBlocksOf, blockSize]; positivity
    · rw [latBlocksOf, blockSize]; positivity
  have h1 : (100 : ℤ) ≤ jroundQ (100 + blocksOf loc streetName * 100) := by
    rw [jroundQ]
    apply Int.le_floor.mpr
    push_cast
    nlinarith
  have h10 : (10 : ℤ) ≤ jroundQ ((jroundQ (100 + blocksOf loc streetName * 100) : ℚ) / 10) := by
    rw [jroundQ]
    apply Int.le_floor.mpr
    have hq : (100 : ℚ) ≤ (jroundQ (100 + blocksOf loc streetName * 100) : ℚ) := by
      exact_mod_cast h1
    push_cast
    linarith
  have h2 : (100 : ℤ) ≤ estimatePreJitter loc streetName := by
    rw [estimatePreJitter]
    linarith [mul_le_mul_of_nonneg_right h10 (by norm_num : (0 : ℤ) ≤ 10)]
  have h3 : 0 ≤ jitterOf rand := Int.floor_nonneg.mpr (mul_nonneg h0 (by norm_num))
  rw [estimateNum]
  linarith

/-- Witness for C10 at a concrete coordinate, street and draw. -/
theorem grid_estimate_at_least_100_witness :
    (0 : ℚ) ≤ 1 / 4 ∧ 100 ≤ estimateNum ⟨34, -118⟩ ("Grand Ave") (1 / 4) :=
  ⟨by norm_num, (grid_estimate_at_least_100 ⟨34, -118⟩ ("Grand Ave") (1 / 4) (by norm_num)).1⟩

/-! ### Claims about the Report Builder -/

/-- C8 (amended): report identifiers generated with different 4-character
random suffixes are always distinct, whatever the clock readings; the
identifier does not depend on the payload at all, so re-submission
creates a new record rather than updating one. -/
theorem mkReportId_distinct_suffix (t1 t2 : ℕ) (s1 s2 : String)
    (h1 : s1.length = 4) (h2 : s2.length = 4) (hne : s1 ≠ s2) :
    mkReportId t1 s1 ≠ mkReportId t2 s2 := by
  intro h
  apply hne
  apply strExt
  have hd := congrArg String.data h
  simp only [mkReportId, String.data_append] at hd
  refine (List.append_inj' hd ?_).2
  show s1.data.length = s2.data.length
  rw [show s1.data.length = s1.length from rfl, show s2.data.length = s2.length from rfl, h1, h2]

/-- Witness for the amended C8 at concrete clock readings and suffixes. -/
theorem mkReportId_distinct_suffix_witness :
    ("AAAA" : String).length = 4 ∧ ("AAAB" : String).length = 4 ∧
    ("AAAA" : String) ≠ "AAAB" ∧
    mkReportId 99 ("AAAA") ≠ mkReportId 99 ("AAAB") :=
  ⟨by decide, by decide, by decide,
   mkReportId_distinct_suffix 99 99 ("AAAA") ("AAAB") (by decide) (by decide) (by decide)⟩

/-- Counterexample to C8 as stated: two invocations of `handleReport` on
the same capture with identical `Date.now()` and `Math.random()` draws
(a possible, if improbable, environment) return the SAME report
identifier, so "two invocations always produce two distinct
identifiers" is false; distinctness needs the draws to differ. -/
theorem handleReport_same_draws_same_id :
    (handleReport (some c8Body) 99 ("ABCD") ("iso") []).1.reportId =
      (handleReport (some c8Body) 99 ("ABCD") ("iso")
        (handleReport (some c8Body) 99 ("ABCD") ("iso") []).2).1.reportId ∧
    (handleReport (some c8Body) 99 ("ABCD") ("iso") []).1.reportId =
      some (mkReportId 99 ("ABCD")) :=
  ⟨rfl, rfl⟩

/-- C6 (code bug): on a capture with `location` present but `address`
absent, `handleReport` does return the explicit processing-failure
response (`success = false`, status 500) — but the record HAS been
persisted: `env.REPORTS.put` on worker.ts line 167 runs before
`report.address.split(',')` on line 172 throws, so the store is changed
by the failed call, contradicting the no-partial-persistence claim.
(For an unparseable body, or a body with no `location`, the store is
unchanged, as the last conjunct shows.) -/
theorem handleReport_missing_address_persists :
    (handleReport (some c6Body) 7 ("WXYZ") ("iso") []).1.success = false ∧
    (handleReport (some c6Body) 7 ("WXYZ") ("iso") []).1.status = 500 ∧
    (handleReport (some c6Body) 7 ("WXYZ") ("iso") []).2 ≠ [] ∧
    (handleReport none 7 ("WXYZ") ("iso") []).2 = [] := by
  refine ⟨rfl, rfl, ?_, rfl⟩
  exact List.cons_ne_nil _ _

/-! ### C1: interpolation at the exact midpoint of the two candidates -/

lemma distSq_midpoint_eq (loc : Coord) (a b : AddressPoint)
    (hlat : loc.lat = (a.lat + b.lat) / 2) (hlng : loc.lng = (a.lng + b.lng) / 2) :
    distSqTo loc a = distSqTo loc b := by
  rw [distSqTo, distSqTo, hlat, hlng]
  ring

lemma ourDist_midpoint (loc : Coord) (a b : AddressPoint)
    (hlat : loc.lat = (a.lat + b.lat) / 2) (hlng : loc.lng = (a.lng + b.lng) / 2) :
    ourDist loc a = totalDist a b / 2 := by
  rw [ourDist, totalDist]
  have h1 : ((loc.lat : ℝ)) - (a.lat : ℝ) = (((b.lat : ℝ)) - (a.lat : ℝ)) / 2 := by
    rw [hlat]
    push_cast
    ring
  have h2 : ((loc.lng : ℝ)) - (a.lng : ℝ) = (((b.lng : ℝ)) - (a.lng : ℝ)) / 2 := by
    rw [hlng]
    push_cast
    ring
  rw [h1, h2]
  rw [show ((((b.lat : ℝ)) - (a.lat : ℝ)) / 2) ^ 2 + ((((b.lng : ℝ)) - (a.lng : ℝ)) / 2) ^ 2 =
      (1 / 2) ^ 2 * ((((b.lat : ℝ)) - (a.lat : ℝ)) ^ 2 + (((b.lng : ℝ)) - (a.lng : ℝ)) ^ 2) by
        ring]
  rw [Real.sqrt_mul (sq_nonneg (1 / 2)), Real.sqrt_sq (by norm_num : (0 : ℝ) ≤ 1 / 2)]
  ring

/-- C1 (amended): with exactly two valid candidates at distinct numbers
and DISTINCT coordinates, a target at the exact midpoint of their segment
makes `interpolateAddress` return the rounded average of the two numbers
(possibly parity-adjusted by one; in fact the exact-arithmetic side sign
vanishes at the midpoint, so the left disjunct holds). -/
theorem interp_midpoint_rounded_average (places : List Place) (loc : Coord)
    (streetName : String) (rand : ℚ) (a b : AddressPoint)
    (hW : withNumbersOf places = [a, b])
    (_hnum : a.num ≠ b.num)
    (hcoords : (a.lat, a.lng) ≠ (b.lat, b.lng))
    (hlat : loc.lat = (a.lat + b.lat) / 2)
    (hlng : loc.lng = (a.lng + b.lng) / 2) :
    interpolateAddress loc streetName (some places) rand =
      Int.repr (jround (((a.num : ℝ) + (b.num : ℝ)) / 2)) ∨
    interpolateAddress loc streetName (some places) rand =
      Int.repr (jround (((a.num : ℝ) + (b.num : ℝ)) / 2) + 1) := by
  left
  have htd : totalDist a b ≠ 0 := ne_of_gt (totalDist_pos a b hcoords)
  have hsort : sortByDist loc [a, b] = [a, b] :=
    sortByDist_pair loc a b (le_of_eq (distSq_midpoint_eq loc a b hlat hlng))
  have hratio : interpRatioOpt loc a b = some (1 / 2) := by
    rw [interpRatioOpt_of_td_ne_zero loc a b htd, ourDist_midpoint loc a b hlat hlng]
    have hq : totalDist a b / 2 / totalDist a b = 1 / 2 := by
      field_simp
      ring
    rw [hq]
    norm_num
  have hside : sideSign loc a b = 0 := by
    rw [sideSign_eq_cross loc a b hcoords]
    have hz : (((loc.lng : ℝ)) - (a.lng : ℝ)) * (((b.lat : ℝ)) - (a.lat : ℝ)) -
        (((loc.lat : ℝ)) - (a.lat : ℝ)) * (((b.lng : ℝ)) - (a.lng : ℝ)) = 0 := by
      rw [hlat, hlng]
      push_cast
      ring
    rw [hz, Real.sign_zero]
  have hpre : interpEstimatePre loc a b =
      some (jround (((a.num : ℝ) + (b.num : ℝ)) / 2)) := by
    rw [interpEstimatePre, hratio, Option.map_some']
    have harg : (a.num : ℝ) + ((b.num : ℝ) - (a.num : ℝ)) * (1 / 2) =
        ((a.num : ℝ) + (b.num : ℝ)) / 2 := by
      ring
    rw [harg]
  have hcore : interpCore loc a b = some (jround (((a.num : ℝ) + (b.num : ℝ)) / 2)) := by
    rw [interpCore, hpre, Option.map_some', hside, parityAdjust_side_zero]
  simp only [interpolateAddress, hW, hsort, hcore]
  norm_num

/-- Witness for the amended C1: candidates numbered 100 and 200 on a
vertical segment, target at the midpoint; the claimed value is
`round((100 + 200)/2) = 150`. -/
theorem interp_midpoint_rounded_average_witness :
    withNumbersOf [⟨some ⟨some ("100")⟩, 0, 0⟩, ⟨some ⟨some ("200")⟩, 0, 1⟩] =
      [⟨100, 0, 0⟩, ⟨200, 0, 1⟩] ∧
    jround ((((100 : ℤ) : ℝ) + ((200 : ℤ) : ℝ)) / 2) = 150 ∧
    (interpolateAddress ⟨0, 1 / 2⟩ ("Main St")
        (some [⟨some ⟨some ("100")⟩, 0, 0⟩, ⟨some ⟨some ("200")⟩, 0, 1⟩]) 0 =
      Int.repr (jround ((((100 : ℤ) : ℝ) + ((200 : ℤ) : ℝ)) / 2)) ∨
     interpolateAddress ⟨0, 1 / 2⟩ ("Main St")
        (some [⟨some ⟨some ("100")⟩, 0, 0⟩, ⟨some ⟨some ("200")⟩, 0, 1⟩]) 0 =
      Int.repr (jround ((((100 : ℤ) : ℝ) + ((200 : ℤ) : ℝ)) / 2) + 1)) :=
  ⟨by decide, by rw [jround]; norm_num [Int.floor_eq_iff],
   interp_midpoint_rounded_average _ _ _ _ ⟨100, 0, 0⟩ ⟨200, 0, 1⟩ (by decide) (by decide)
     (by decide) (by norm_num) (by norm_num)⟩

/-- Counterexample to C1 as stated: two candidates with distinct numbers
(100 and 200) can sit at IDENTICAL coordinates; the "midpoint of the
segment between them" is then that shared point, `0/0` makes the ratio
`NaN`, and the code returns the string `"NaN"` — not the rounded average
150 (nor its parity adjustment 151). -/
theorem interp_midpoint_coincident_returns_nan :
    interpolateAddress ⟨1, 1⟩ ("Main St")
      (some [⟨some ⟨some ("100")⟩, 1, 1⟩, ⟨some ⟨some ("200")⟩, 1, 1⟩]) 0 = "NaN" ∧
    ("NaN" : String) ≠ Int.repr (jround (((100 : ℝ) + 200) / 2)) ∧
    ("NaN" : String) ≠ Int.repr (jround (((100 : ℝ) + 200) / 2) + 1) := by
  have hj : jround (((100 : ℝ) + 200) / 2) = 150 := by
    rw [jround]
    norm_num [Int.floor_eq_iff]
  refine ⟨?_, ?_, ?_⟩
  · have hW : withNumbersOf [⟨some ⟨some ("100")⟩, 1, 1⟩, ⟨some ⟨some ("200")⟩, 1, 1⟩] =
        [⟨100, 1, 1⟩, ⟨200, 1, 1⟩] := by decide
    have hsort : sortByDist ⟨1, 1⟩ [⟨100, 1, 1⟩, ⟨200, 1, 1⟩] = [⟨100, 1, 1⟩, ⟨200, 1, 1⟩] :=
      sortByDist_pair _ _ _ (le_of_eq rfl)
    have hdeg : interpCore ⟨1, 1⟩ ⟨100, 1, 1⟩ ⟨200, 1, 1⟩ = none := by
      have htd : totalDist ⟨100, 1, 1⟩ ⟨200, 1, 1⟩ = 0 := by
        rw [totalDist]
        push_cast
        norm_num
      have hod : ourDist ⟨1, 1⟩ ⟨100, 1, 1⟩ = 0 := by
        rw [ourDist]
        push_cast
        norm_num
      rw [interpCore, interpEstimatePre, interpRatioOpt, if_pos ⟨htd, hod⟩]
      rfl
    simp only [interpolateAddress, hW, hsort, hdeg]
    norm_num
  · rw [hj]
    decide
  · rw [hj]
    decide

/-! ### C2: the ratio the code computes vs the spec's projection ratio -/

/-- C2 (amended): the code computes `ratio` as the STRAIGHT-LINE distance
from the target to `p1` divided by the `p1`→`p2` distance, clamped to
`[0, 1]` — not the orthogonal projection.  The two coincide exactly when
the target lies on the segment (`loc = p1 + t·(p2 − p1)`, `t ∈ [0, 1]`),
and the pre-adjustment estimate is
`round(p1.num + (p2.num − p1.num) · ratio)`. -/
theorem code_ratio_agrees_with_projection_on_segment (loc : Coord)
    (p1 p2 : AddressPoint) (t : ℚ)
    (hcoords : (p1.lat, p1.lng) ≠ (p2.lat, p2.lng))
    (ht0 : 0 ≤ t) (ht1 : t ≤ 1)
    (hlat : loc.lat = p1.lat + t * (p2.lat - p1.lat))
    (hlng : loc.lng = p1.lng + t * (p2.lng - p1.lng)) :
    interpRatioOpt loc p1 p2 = some ((t : ℝ)) ∧
    projRatioSpec loc p1 p2 = (t : ℝ) ∧
    interpEstimatePre loc p1 p2 =
      some (jround ((p1.num : ℝ) + ((p2.num : ℝ) - (p1.num : ℝ)) * (t : ℝ))) := by
  have hxq : ((loc.lat : ℝ)) - (p1.lat : ℝ) = (t : ℝ) * (((p2.lat : ℝ)) - (p1.lat : ℝ)) := by
    rw [hlat]
    push_cast
    ring
  have hyq : ((loc.lng : ℝ)) - (p1.lng : ℝ) = (t : ℝ) * (((p2.lng : ℝ)) - (p1.lng : ℝ)) := by
    rw [hlng]
    push_cast
    ring
  have htR : (0 : ℝ) ≤ (t : ℝ) := by exact_mod_cast ht0
  have ht1R : ((t : ℝ)) ≤ 1 := by exact_mod_cast ht1
  have htdpos : 0 < totalDist p1 p2 := totalDist_pos p1 p2 hcoords
  have hod : ourDist loc p1 = (t : ℝ) * totalDist p1 p2 := by
    rw [ourDist, totalDist, hxq, hyq]
    rw [show ((t : ℝ) * (((p2.lat : ℝ)) - (p1.lat : ℝ))) ^ 2 +
        ((t : ℝ) * (((p2.lng : ℝ)) - (p1.lng : ℝ))) ^ 2 =
        (t : ℝ) ^ 2 * ((((p2.lat : ℝ)) - (p1.lat : ℝ)) ^ 2 +
          (((p2.lng : ℝ)) - (p1.lng : ℝ)) ^ 2) by ring]
    rw [Real.sqrt_mul (sq_nonneg _), Real.sqrt_sq htR]
  have hclamp : min 1 (max 0 ((t : ℝ))) = (t : ℝ) := by
    rw [max_eq_right htR, min_eq_right ht1R]
  have hratio : interpRatioOpt loc p1 p2 = some ((t : ℝ)) := by
    rw [interpRatioOpt_of_td_ne_zero loc p1 p2 (ne_of_gt htdpos), hod,
      mul_div_assoc, div_self (ne_of_gt htdpos), mul_one, hclamp]
  refine ⟨hratio, ?_, ?_⟩
  · have hS2 : 0 < (((p2.lat : ℝ)) - (p1.lat : ℝ)) ^ 2 +
        (((p2.lng : ℝ)) - (p1.lng : ℝ)) ^ 2 := by
      have h' := htdpos
      rw [totalDist] at h'
      exact Real.sqrt_pos.mp h'
    have hmulself : totalDist p1 p2 * totalDist p1 p2 =
        (((p2.lat : ℝ)) - (p1.lat : ℝ)) ^ 2 + (((p2.lng : ℝ)) - (p1.lng : ℝ)) ^ 2 := by
      rw [totalDist]
      exact Real.mul_self_sqrt (le_of_lt hS2)
    have hdot : (((loc.lat : ℝ)) - (p1.lat : ℝ)) * (((p2.lat : ℝ)) - (p1.lat : ℝ)) +
        (((loc.lng : ℝ)) - (p1.lng : ℝ)) * (((p2.lng : ℝ)) - (p1.lng : ℝ)) =
        (t : ℝ) * ((((p2.lat : ℝ)) - (p1.lat : ℝ)) ^ 2 +
          (((p2.lng : ℝ)) - (p1.lng : ℝ)) ^ 2) := by
      rw [hxq, hyq]
      ring
    rw [projRatioSpec, hdot, div_div, hmulself,
      mul_div_assoc, div_self (ne_of_gt hS2), mul_one, hclamp]
  · rw [interpEstimatePre, hratio, Option.map_some']

/-- Witness for the amended C2: a vertical segment from (0,0) to (0,2)
with numbers 100 and 200 and the target a quarter of the way along it. -/
theorem code_ratio_agrees_on_segment_witness :
    ((0 : ℚ) ≤ 1 / 4 ∧ (1 / 4 : ℚ) ≤ 1) ∧
    interpRatioOpt ⟨0, 1 / 2⟩ ⟨100, 0, 0⟩ ⟨200, 0, 2⟩ = some (((1 / 4 : ℚ) : ℝ)) ∧
    projRatioSpec ⟨0, 1 / 2⟩ ⟨100, 0, 0⟩ ⟨200, 0, 2⟩ = ((1 / 4 : ℚ) : ℝ) :=
  ⟨⟨by norm_num, by norm_num⟩,
   (code_ratio_agrees_with_projection_on_segment ⟨0, 1 / 2⟩ ⟨100, 0, 0⟩ ⟨200, 0, 2⟩ (1 / 4)
      (by decide) (by norm_num) (by norm_num) (by norm_num) (by norm_num)).1,
   (code_ratio_agrees_with_projection_on_segment ⟨0, 1 / 2⟩ ⟨100, 0, 0⟩ ⟨200, 0, 2⟩ (1 / 4)
      (by decide) (by norm_num) (by norm_num) (by norm_num) (by norm_num)).2.1⟩

/-- Counterexample to C2 as stated: for a target OFF the line p1→p2 the
code's ratio is not the projection ratio.  With `p1 = (0,0)` (number
100), `p2 = (0,1)` (number 200) and the target at `(1,0)` (orthogonal to
the segment at `p1`), the projection ratio is 0, but the code computes
`ourDist/totalDist = 1/1 = 1` and a pre-adjustment estimate of 200 where
the projection formula would give 100. -/
theorem code_ratio_is_not_projection :
    interpRatioOpt ⟨1, 0⟩ ⟨100, 0, 0⟩ ⟨200, 0, 1⟩ = some 1 ∧
    projRatioSpec ⟨1, 0⟩ ⟨100, 0, 0⟩ ⟨200, 0, 1⟩ = 0 ∧
    interpRatioOpt ⟨1, 0⟩ ⟨100, 0, 0⟩ ⟨200, 0, 1⟩ ≠
      some (projRatioSpec ⟨1, 0⟩ ⟨100, 0, 0⟩ ⟨200, 0, 1⟩) ∧
    interpEstimatePre ⟨1, 0⟩ ⟨100, 0, 0⟩ ⟨200, 0, 1⟩ = some 200 ∧
    jround ((100 : ℝ) + ((200 : ℝ) - (100 : ℝ)) *
      projRatioSpec ⟨1, 0⟩ ⟨100, 0, 0⟩ ⟨200, 0, 1⟩) = 100 := by
  have htd : totalDist ⟨100, 0, 0⟩ ⟨200, 0, 1⟩ = 1 := by
    show Real.sqrt ((((0 : ℚ) : ℝ) - ((0 : ℚ) : ℝ)) ^ 2 + (((1 : ℚ) : ℝ) - ((0 : ℚ) : ℝ)) ^ 2) = 1
    push_cast
    norm_num
  have hod : ourDist ⟨1, 0⟩ ⟨100, 0, 0⟩ = 1 := by
    show Real.sqrt ((((1 : ℚ) : ℝ) - ((0 : ℚ) : ℝ)) ^ 2 + (((0 : ℚ) : ℝ) - ((0 : ℚ) : ℝ)) ^ 2) = 1
    push_cast
    norm_num
  have hr : interpRatioOpt ⟨1, 0⟩ ⟨100, 0, 0⟩ ⟨200, 0, 1⟩ = some 1 := by
    rw [interpRatioOpt_of_td_ne_zero _ _ _ (by rw [htd]; norm_num), htd, hod]
    norm_num
  have hp : projRatioSpec ⟨1, 0⟩ ⟨100, 0, 0⟩ ⟨200, 0, 1⟩ = 0 := by
    rw [projRatioSpec, htd]
    show min 1 (max 0 ((((((1 : ℚ) : ℝ) - ((0 : ℚ) : ℝ)) * (((0 : ℚ) : ℝ) - ((0 : ℚ) : ℝ)) +
      (((0 : ℚ) : ℝ) - ((0 : ℚ) : ℝ)) * (((1 : ℚ) : ℝ) - ((0 : ℚ) : ℝ))) / 1) / 1)) = 0
    push_cast
    norm_num
  refine ⟨hr, hp, ?_, ?_, ?_⟩
  · rw [hr, hp]
    simp
  · rw [interpEstimatePre, hr, Option.map_some']
    have harg : (((⟨100, 0, 0⟩ : AddressPoint).num : ℝ)) +
        ((((⟨200, 0, 1⟩ : AddressPoint).num : ℝ)) - (((⟨100, 0, 0⟩ : AddressPoint).num : ℝ))) * 1
        = 200 := by
      push_cast
      norm_num
    rw [harg, jround]
    norm_num [Int.floor_eq_iff]
  · rw [hp, jround]
    norm_num [Int.floor_eq_iff]

/-! ### C9: bounds for the two-candidate interpolation branch -/

/-- C9 (amended): in the two-candidate branch, unless the two candidates
AND the target all share one coordinate point (the `0/0 = NaN` corner),
the ratio is clamped to `[0, 1]`, the pre-adjustment estimate lies
between the two candidate numbers, the parity adjustment only ever adds
exactly 1, and the final number lies in
`[min(p1.num, p2.num), max(p1.num, p2.num) + 1]`. -/
theorem interp_branch_bounds (loc : Coord) (p1 p2 : AddressPoint)
    (h : ¬(totalDist p1 p2 = 0 ∧ ourDist loc p1 = 0)) :
    ∃ r e k, interpRatioOpt loc p1 p2 = some r ∧ 0 ≤ r ∧ r ≤ 1 ∧
      interpEstimatePre loc p1 p2 = some e ∧
      min p1.num p2.num ≤ e ∧ e ≤ max p1.num p2.num ∧
      interpCore loc p1 p2 = some k ∧ (k = e ∨ k = e + 1) ∧
      min p1.num p2.num ≤ k ∧ k ≤ max p1.num p2.num + 1 := by
  obtain ⟨r, hr, hr0, hr1⟩ :
      ∃ r, interpRatioOpt loc p1 p2 = some r ∧ 0 ≤ r ∧ r ≤ 1 := by
    by_cases htd : totalDist p1 p2 = 0
    · refine ⟨1, ?_, by norm_num, le_refl 1⟩
      rw [interpRatioOpt, if_neg h, if_pos htd]
    · refine ⟨min 1 (max 0 (ourDist loc p1 / totalDist p1 p2)), ?_, ?_, ?_⟩
      · rw [interpRatioOpt, if_neg h, if_neg htd]
      · exact le_min (by norm_num) (le_max_left 0 _)
      · exact min_le_left 1 _
  have hb : ((min p1.num p2.num : ℤ) : ℝ) ≤
        (p1.num : ℝ) + ((p2.num : ℝ) - (p1.num : ℝ)) * r ∧
      (p1.num : ℝ) + ((p2.num : ℝ) - (p1.num : ℝ)) * r ≤
        ((max p1.num p2.num : ℤ) : ℝ) := by
    rcases le_total p1.num p2.num with hle | hle
    · have hc : ((p1.num : ℝ)) ≤ (p2.num : ℝ) := by exact_mod_cast hle
      rw [min_eq_left hle, max_eq_right hle]
      constructor
      · nlinarith
      · nlinarith
    · have hc : ((p2.num : ℝ)) ≤ (p1.num : ℝ) := by exact_mod_cast hle
      rw [min_eq_right hle, max_eq_left hle]
      constructor
      · nlinarith
      · nlinarith
  have helo : min p1.num p2.num ≤
      jround ((p1.num : ℝ) + ((p2.num : ℝ) - (p1.num : ℝ)) * r) := by
    rw [jround]
    apply Int.le_floor.mpr
    linarith [hb.1]
  have hehi : jround ((p1.num : ℝ) + ((p2.num : ℝ) - (p1.num : ℝ)) * r) ≤
      max p1.num p2.num := by
    rw [jround]
    apply Int.lt_add_one_iff.mp
    apply Int.floor_lt.mpr
    push_cast
    push_cast at hb
    linarith [hb.2]
  have hePre : interpEstimatePre loc p1 p2 =
      some (jround ((p1.num : ℝ) + ((p2.num : ℝ) - (p1.num : ℝ)) * r)) := by
    rw [interpEstimatePre, hr, Option.map_some']
  have hkc := parityAdjust_self_or_succ
    (jround ((p1.num : ℝ) + ((p2.num : ℝ) - (p1.num : ℝ)) * r)) (sideSign loc p1 p2)
  refine ⟨r, jround ((p1.num : ℝ) + ((p2.num : ℝ) - (p1.num : ℝ)) * r),
      parityAdjust (jround ((p1.num : ℝ) + ((p2.num : ℝ) - (p1.num : ℝ)) * r))
        (sideSign loc p1 p2),
      hr, hr0, hr1, hePre, helo, hehi, ?_, hkc, ?_, ?_⟩
  · rw [interpCore, hePre, Option.map_some']
  · rcases hkc with hk | hk <;> omega
  · rcases hkc with hk | hk <;> omega

/-- Witness for the amended C9: candidates 100 at (0,0) and 200 at (0,1),
target at (0,0). -/
theorem interp_branch_bounds_witness :
    ¬(totalDist ⟨100, 0, 0⟩ ⟨200, 0, 1⟩ = 0 ∧ ourDist ⟨0, 0⟩ ⟨100, 0, 0⟩ = 0) ∧
    (∃ r e k, interpRatioOpt ⟨0, 0⟩ ⟨100, 0, 0⟩ ⟨200, 0, 1⟩ = some r ∧ 0 ≤ r ∧ r ≤ 1 ∧
      interpEstimatePre ⟨0, 0⟩ ⟨100, 0, 0⟩ ⟨200, 0, 1⟩ = some e ∧
      min (100 : ℤ) 200 ≤ e ∧ e ≤ max (100 : ℤ) 200 ∧
      interpCore ⟨0, 0⟩ ⟨100, 0, 0⟩ ⟨200, 0, 1⟩ = some k ∧ (k = e ∨ k = e + 1) ∧
      min (100 : ℤ) 200 ≤ k ∧ k ≤ max (100 : ℤ) 200 + 1) := by
  have htd1 : totalDist ⟨100, 0, 0⟩ ⟨200, 0, 1⟩ = 1 := by
    show Real.sqrt ((((0 : ℚ) : ℝ) - ((0 : ℚ) : ℝ)) ^ 2 +
      (((1 : ℚ) : ℝ) - ((0 : ℚ) : ℝ)) ^ 2) = 1
    push_cast
    norm_num
  have hno : ¬(totalDist ⟨100, 0, 0⟩ ⟨200, 0, 1⟩ = 0 ∧ ourDist ⟨0, 0⟩ ⟨100, 0, 0⟩ = 0) := by
    intro hc
    rw [htd1] at hc
    exact one_ne_zero hc.1
  exact ⟨hno, interp_branch_bounds ⟨0, 0⟩ ⟨100, 0, 0⟩ ⟨200, 0, 1⟩ hno⟩

/-- Counterexample to C9 as stated: when both candidates and the target
share one coordinate point, JS computes `0/0 = NaN`, the ratio is NOT
clamped into `[0, 1]`, and the branch returns the string `"NaN"` — no
integer in `[min, max + 1]` at all. -/
theorem interp_branch_degenerate_nan :
    interpCore ⟨2, 3⟩ ⟨100, 2, 3⟩ ⟨200, 2, 3⟩ = none ∧
    interpolateAddress ⟨2, 3⟩ ("Elm St")
      (some [⟨some ⟨some ("100")⟩, 2, 3⟩, ⟨some ⟨some ("200")⟩, 2, 3⟩]) 0 = "NaN" := by
  have htd : totalDist ⟨100, 2, 3⟩ ⟨200, 2, 3⟩ = 0 := by
    show Real.sqrt ((((2 : ℚ) : ℝ) - ((2 : ℚ) : ℝ)) ^ 2 +
      (((3 : ℚ) : ℝ) - ((3 : ℚ) : ℝ)) ^ 2) = 0
    push_cast
    norm_num
  have hod : ourDist ⟨2, 3⟩ ⟨100, 2, 3⟩ = 0 := by
    show Real.sqrt ((((2 : ℚ) : ℝ) - ((2 : ℚ) : ℝ)) ^ 2 +
      (((3 : ℚ) : ℝ) - ((3 : ℚ) : ℝ)) ^ 2) = 0
    push_cast
    norm_num
  have hdeg : interpCore ⟨2, 3⟩ ⟨100, 2, 3⟩ ⟨200, 2, 3⟩ = none := by
    rw [interpCore, interpEstimatePre, interpRatioOpt, if_pos ⟨htd, hod⟩]
    rfl
  refine ⟨hdeg, ?_⟩
  have hW : withNumbersOf [⟨some ⟨some ("100")⟩, 2, 3⟩, ⟨some ⟨some ("200")⟩, 2, 3⟩] =
      [⟨100, 2, 3⟩, ⟨200, 2, 3⟩] := by decide
  have hsort : sortByDist ⟨2, 3⟩ [⟨100, 2, 3⟩, ⟨200, 2, 3⟩] = [⟨100, 2, 3⟩, ⟨200, 2, 3⟩] :=
    sortByDist_pair _ _ _ (le_of_eq rfl)
  simp only [interpolateAddress, hW, hsort, hdeg]
  norm_num

/-! ### C5: the interpolator is total and never returns an empty string -/

/-- C5: for every coordinate, street name, search outcome (including a
failed fetch, `searchResult = none`) and random draw, `interpolateAddress`
returns a non-empty string; the failure branch returns exactly the Grid
Estimator's result.  Totality of the model reflects that every source
path is inside `try`/`catch` with the catch returning
`estimateFromBlock`. -/
theorem interpolateAddress_total_nonempty (loc : Coord) (streetName : String)
    (searchResult : Option (List Place)) (rand : ℚ) :
    interpolateAddress loc streetName searchResult rand ≠ "" ∧
    interpolateAddress loc streetName none rand = estimateFromBlock loc streetName rand := by
  refine ⟨?_, rfl⟩
  cases searchResult with
  | none => exact estimateFromBlock_ne_empty loc streetName rand
  | some places =>
    by_cases hlen : (withNumbersOf places).length < 2
    · have heq : interpolateAddress loc streetName (some places) rand =
          estimateFromBlock loc streetName rand := by
        simp only [interpolateAddress]
        rw [if_pos hlen]
      rw [heq]
      exact estimateFromBlock_ne_empty loc streetName rand
    · simp only [interpolateAddress]
      rw [if_neg hlen]
      rcases hsort : sortByDist loc (withNumbersOf places) with - | ⟨p1, - | ⟨p2, rest⟩⟩
      · exact estimateFromBlock_ne_empty loc streetName rand
      · exact intRepr_ne_empty p1.num
      · dsimp only
        rcases hcore : interpCore loc p1 p2 with - | k
        · decide
        · exact intRepr_ne_empty k

/-! ### C7: the Address Composer never returns an empty string -/

lemma jsOrStr_ne_empty (a : Option String) (b : String) (hb : b ≠ "") :
    jsOrStr a b ≠ "" := by
  cases a with
  | none => exact hb
  | some s =>
    show (if (s == "") = true then b else s) ≠ ""
    by_cases hs : (s == "") = true
    · rw [if_pos hs]
      exact hb
    · rw [if_neg hs]
      intro he
      exact hs (by rw [he]; rfl)

lemma joinComma_two_ne_empty (x y : String) (l : List String) :
    joinComma (x :: y :: l) ≠ "" := by
  apply ne_empty_of_data_ne_nil
  show (x ++ ", " ++ joinComma (y :: l)).data ≠ []
  rw [String.data_append, String.data_append]
  intro hnil
  rcases List.append_eq_nil.mp hnil with ⟨h1, -⟩
  rcases List.append_eq_nil.mp h1 with ⟨-, h2⟩
  have hne : (", " : String).data ≠ [] := by decide
  exact hne h2

lemma joinComma_ne_empty_of_two_le (l : List String) (h : 2 ≤ l.length) :
    joinComma l ≠ "" := by
  rcases l with - | ⟨x, - | ⟨y, rest⟩⟩
  · simp at h
  · simp at h
  · exact joinComma_two_ne_empty x y rest

/-- C7: for every valid coordinate, `getAddress` returns a non-empty
string; a geocoding failure falls back to the fixed `"Los Angeles, CA"`
default, and an absent street name falls back to the geocoder's raw
display string (or, if that is falsy too, the same fixed default, which
is what `jsOrStr` computes). -/
theorem getAddress_nonempty_and_fallbacks (c : Coord)
    (_hlat1 : -90 ≤ c.lat) (_hlat2 : c.lat ≤ 90)
    (_hlng1 : -180 ≤ c.lng) (_hlng2 : c.lng ≤ 180)
    (rev : Option RevResponse) (searchResult : Option (List Place)) (rand : ℚ) :
    getAddress (some c) rev searchResult rand ≠ "" ∧
    getAddress (some c) none searchResult rand = "Los Angeles, CA" ∧
    (∀ data, rev = some data → roadOf data = "" →
      getAddress (some c) rev searchResult rand =
        jsOrStr data.display_name ("Los Angeles, CA")) ∧
    (∀ data addr num road nb cty pc, rev = some data → data.address = some addr →
      addr.house_number = some num → num ≠ "" → roadOf data = road → road ≠ "" →
      addr.neighbourhood = some nb → nb ≠ "" → addr.city = some cty → cty ≠ "" →
      addr.postcode = some pc → pc ≠ "" →
      getAddress (some c) rev searchResult rand =
        (num ++ " " ++ road) ++ ", " ++ (nb ++ ", " ++ (cty ++ ", " ++ ("CA" ++ ", " ++ pc)))) := by
  refine ⟨?_, rfl, ?_, ?_⟩
  · cases rev with
    | none =>
      show ("Los Angeles, CA" : String) ≠ ""
      decide
    | some data =>
      simp only [getAddress]
      by_cases hroad : (roadOf data == "") = true
      · rw [if_pos hroad]
        apply jsOrStr_ne_empty
        decide
      · rw [if_neg hroad]
        apply joinComma_ne_empty_of_two_le
        simp only [List.length_append, List.length_cons, List.length_nil]
        omega
  · intro data hrev hroad
    subst hrev
    simp only [getAddress]
    rw [if_pos (show (roadOf data == "") = true by rw [hroad]; decide)]
  · intro data addr num road nb cty pc hrev haddr hnum hnumne hroaddef hroadne hnb hnbne
      hcty hctyne hpc hpcne
    subst hrev
    subst hroaddef
    simp only [getAddress, haddr, Option.getD_some, hnum, hnb, hcty, hpc, jsOrStr,
      jsTruthyOpt, joinComma]
    simp [hnumne, hroadne, hnbne, hctyne, hpcne, joinComma]

/-- Witness for C7 at a concrete valid coordinate with a failed
reverse-geocode call. -/
theorem getAddress_nonempty_witness :
    ((-90 : ℚ) ≤ 34 ∧ (34 : ℚ) ≤ 90 ∧ (-180 : ℚ) ≤ -118 ∧ (-118 : ℚ) ≤ 180) ∧
    getAddress (some ⟨34, -118⟩) none none 0 = "Los Angeles, CA" ∧
    getAddress (some ⟨34, -118⟩) none none 0 ≠ "" := by
  refine ⟨⟨by norm_num, by norm_num, by norm_num, by norm_num⟩, ?_, ?_⟩
  · exact (getAddress_nonempty_and_fallbacks ⟨34, -118⟩
      (show (-90 : ℚ) ≤ 34 by norm_num) (show (34 : ℚ) ≤ 90 by norm_num)
      (show (-180 : ℚ) ≤ -118 by norm_num) (show (-118 : ℚ) ≤ 180 by norm_num)
      none none 0).2.1
  · exact (getAddress_nonempty_and_fallbacks ⟨34, -118⟩
      (show (-90 : ℚ) ≤ 34 by norm_num) (show (34 : ℚ) ≤ 90 by norm_num)
      (show (-180 : ℚ) ≤ -118 by norm_num) (show (-118 : ℚ) ≤ 180 by norm_num)
      none none 0).1

end PotholeLA
